import Mathlib

/-
  Verification development for the platypus fleet energy-aware control loop.

  Shallow embedding conventions:
  * Go `float64` values are modelled as exact rationals (`ℚ`); the claims
    checked here concern ranges, guards and control structure, which are
    insensitive to rounding.  Where IEEE-754 non-finite values (±Inf, NaN)
    are reachable (the planner's unguarded division), floats are modelled
    by the dedicated type `GoFloat` below.
  * Go `time.Time` / `time.Duration` are modelled as `Int` nanoseconds;
    `models.MetricData.Timestamp` is an `Int` of Unix seconds, exactly as
    in the source (`int64`), converted to nanoseconds where the source
    builds a `time.Time` from it.
  * Effectful methods are modelled as pure functions threading explicit
    state; collaborator calls (cloud provider, orchestration) are oracle
    parameters; fallible calls return `Except GoErr` / `Option`.
-/

set_option autoImplicit false

namespace Platypus

/-- Errors are modelled by their message (Go `error`). -/
def GoErr := String
deriving DecidableEq

/- internal/models/types.go: MetricData -/
structure MetricData where
  serverID : String
  timestamp : Int
  powerUsage : ℚ
  carbonFootprint : ℚ
  cpuUsage : ℚ
  memoryUsage : ℚ
deriving DecidableEq

/- internal/models/types.go: Server -/
structure Server where
  id : String
  provider : String
  region : String
  instanceType : String
  ecoScore : ℚ
deriving DecidableEq

/- internal/models/types.go: Container -/
structure Container where
  id : String
  serverID : String
  serviceName : String
  ecoTags : List String
  powerUsage : ℚ
deriving DecidableEq

/- ===== internal/metrics/analyzer.go ===== -/

/-- `calculateMean`: mean of the power-draw field.  (Only ever applied to
non-empty lists by the functions below; `q / 0 = 0` in `ℚ` where Go would
produce NaN on an empty slice.) -/
def calculateMean (metrics : List MetricData) : ℚ :=
  (metrics.map (·.powerUsage)).sum / (metrics.length : ℚ)

/-- `calculatePowerScore`: `max(0, 1 - mean/1000)`. -/
def calculatePowerScore (metrics : List MetricData) : ℚ :=
  max 0 (1 - calculateMean metrics / 1000)

/-- `calculateUtilizationScore`: average over samples of
`1 - |0.7 - cpu/100|`; note the source applies no clamp here. -/
def calculateUtilizationScore (metrics : List MetricData) : ℚ :=
  (metrics.map (fun m => 1 - |(0.7 : ℚ) - m.cpuUsage / 100|)).sum / (metrics.length : ℚ)

/-- `calculateCarbonScore`: `max(0, 1 - avgCarbon)`. -/
def calculateCarbonScore (metrics : List MetricData) : ℚ :=
  max 0 (1 - (metrics.map (·.carbonFootprint)).sum / (metrics.length : ℚ))

/-- `calculateEfficiencyScore`: 0 on an empty sample set, otherwise
`(powerScore*0.4 + utilizationScore*0.3 + carbonScore*0.3) * 100`. -/
def calculateEfficiencyScore (metrics : List MetricData) : ℚ :=
  if metrics.length = 0 then 0
  else
    (calculatePowerScore metrics * 0.4 +
     calculateUtilizationScore metrics * 0.3 +
     calculateCarbonScore metrics * 0.3) * 100

/-- Modelled from the spec: the exported `Analyzer.CalculateEcoScore` is
called by the autoscaler, the planner and the tag manager but its
definition is not among the provided source files.  Per spec §4.2 it is
the composite efficiency score, returning 0 on an empty or zero-length
sample set — exactly the behaviour of `calculateEfficiencyScore` above. -/
def CalculateEcoScore (metrics : List MetricData) : ℚ :=
  calculateEfficiencyScore metrics

/- ===== Go float64 model with IEEE-754 non-finite values =====

The planner's `estimatePowerSaving` divides by an eco-score with no zero
guard.  Go `float64` division never faults: it follows IEEE-754, yielding
±Inf or NaN.  `GoFloat` models a float64 as an exact rational when finite,
plus the two infinities and NaN; the operations below implement the
IEEE-754 rules for the cases reachable here (finite arithmetic is exact —
rounding is irrelevant to the claims checked). -/

inductive GoFloat where
  | finite (q : ℚ)
  | inf (pos : Bool)
  | nan
deriving DecidableEq

namespace GoFloat

/-- IEEE-754 multiplication on the model. -/
def mul : GoFloat → GoFloat → GoFloat
  | nan, _ => nan
  | _, nan => nan
  | finite a, finite b => finite (a * b)
  | finite a, inf p => if a = 0 then nan else if 0 < a then inf p else inf (!p)
  | inf p, finite a => if a = 0 then nan else if 0 < a then inf p else inf (!p)
  | inf p, inf q => inf (p == q)

/-- IEEE-754 division on the model (zero is unsigned, as produced by Go
literals and arithmetic on the data reachable here: x/0 for positive x is
+Inf, for negative x is -Inf, and 0/0 is NaN). -/
def div : GoFloat → GoFloat → GoFloat
  | nan, _ => nan
  | _, nan => nan
  | finite a, finite b =>
      if b = 0 then (if a = 0 then nan else if 0 < a then inf true else inf false)
      else finite (a / b)
  | finite _, inf _ => finite 0
  | inf p, finite a => if 0 ≤ a then inf p else inf (!p)
  | inf _, inf _ => nan

/-- IEEE-754 subtraction on the model. -/
def sub : GoFloat → GoFloat → GoFloat
  | nan, _ => nan
  | _, nan => nan
  | finite a, finite b => finite (a - b)
  | finite _, inf p => inf (!p)
  | inf p, finite _ => inf p
  | inf p, inf q => if p = q then nan else inf p

/-- IEEE-754 `<` (false whenever either operand is NaN). -/
def blt : GoFloat → GoFloat → Bool
  | nan, _ => false
  | _, nan => false
  | finite a, finite b => decide (a < b)
  | finite _, inf p => p
  | inf p, finite _ => !p
  | inf p, inf q => !p && q

/-- Finiteness predicate: NaN and the infinities are not finite. -/
def isFinite : GoFloat → Bool
  | finite _ => true
  | _ => false

end GoFloat

/- ===== internal/migration/planner.go ===== -/

/- MigrationPlan (planner.go:14-21); priority is `int`, power saving a
float64 (possibly non-finite), downtime a `time.Duration` in ns. -/
structure MigrationPlan where
  containerID : String
  sourceServerID : String
  targetServerID : String
  priority : Int
  powerSaving : GoFloat
  downtimeEstimate : Int
deriving DecidableEq

/- PlannerConfig (planner.go:23-28); durations in ns. -/
structure PlannerConfig where
  minPowerSaving : ℚ
  maxDowntime : Int
  planningInterval : Int
  concurrentMigrations : Int
deriving DecidableEq

/-- A metrics lookup oracle: `Collector.GetMetrics` either fails (`none`)
or returns the retained samples for the server. -/
abbrev MetricsLookup := String → Option (List MetricData)

/-- `getServerEcoScore` (planner.go:199-205): 0 when the metrics lookup
fails, otherwise the eco score of the retained samples. -/
def getServerEcoScore (lookup : MetricsLookup) (serverID : String) : ℚ :=
  match lookup serverID with
  | none => 0
  | some ms => CalculateEcoScore ms

/-- `estimatePowerSaving` (planner.go:207-216):
`sourcePower - sourcePower * (targetScore / sourceScore)` computed in
float64 arithmetic, with no guard on `sourceScore = 0`. -/
def estimatePowerSaving (lookup : MetricsLookup) (container : Container)
    (sourceServer targetServer : Server) : GoFloat :=
  let sourcePower := GoFloat.finite container.powerUsage
  let targetPower := sourcePower.mul
    ((GoFloat.finite (getServerEcoScore lookup targetServer.id)).div
     (GoFloat.finite (getServerEcoScore lookup sourceServer.id)))
  sourcePower.sub targetPower

/-- `estimateDowntime` (planner.go:218-231): 30 s base, plus 60 s when the
regions differ (nanoseconds). -/
def estimateDowntime (_container : Container)
    (sourceServer targetServer : Server) : Int :=
  let baseTime : Int := 30 * 1000000000
  if sourceServer.region ≠ targetServer.region then baseTime + 60 * 1000000000
  else baseTime

/-- Go `int(x)` float-to-int conversion on finite values: truncation
toward zero. -/
def goTrunc (q : ℚ) : Int :=
  if q < 0 then ⌈q⌉ else ⌊q⌋

/-- `calculatePriority` (planner.go:233-251): truncate
`(powerSaving / MinPowerSaving) * 10` to int, subtract 2 when downtime
exceeds `MaxDowntime/2` (Go integer division truncates toward zero, `Int.tdiv`), then
clamp to [1,10] by two sequential comparisons. -/
def calculatePriority (cfg : PlannerConfig) (powerSaving : ℚ) (downtime : Int) : Int :=
  let priority := goTrunc (powerSaving / cfg.minPowerSaving * 10)
  let priority := if downtime > cfg.maxDowntime.tdiv 2 then priority - 2 else priority
  let priority := if priority < 1 then 1 else priority
  let priority := if priority > 10 then 10 else priority
  priority

/-- Priority of a candidate plan whose power saving is a float64.  The
selected saving is finite in every run with non-negative container power;
a non-finite value (reachable only with negative power readings) goes
through Go's implementation-specific float-to-int conversion, which on
the reference platform lands below 1 and is clamped to 1. -/
def calculatePriorityF (cfg : PlannerConfig) (powerSaving : GoFloat) (downtime : Int) : Int :=
  match powerSaving with
  | GoFloat.finite q => calculatePriority cfg q downtime
  | _ => 1

/-- `findBestMigrationPlan` loop (planner.go:113-154): running best plan
and running maximum saving (initially the float64 zero), skipping the
source server, candidates below `MinPowerSaving` (IEEE comparison) and
candidates over `MaxDowntime`. -/
def findBestLoop (cfg : PlannerConfig) (lookup : MetricsLookup)
    (container : Container) (sourceServer : Server) :
    List Server → Option MigrationPlan → GoFloat → Option MigrationPlan
  | [], best, _ => best
  | targetServer :: rest, best, maxPowerSaving =>
    if targetServer.id = sourceServer.id then
      findBestLoop cfg lookup container sourceServer rest best maxPowerSaving
    else
      let powerSaving := estimatePowerSaving lookup container sourceServer targetServer
      if powerSaving.blt (GoFloat.finite cfg.minPowerSaving) then
        findBestLoop cfg lookup container sourceServer rest best maxPowerSaving
      else
        let downtime := estimateDowntime container sourceServer targetServer
        if downtime > cfg.maxDowntime then
          findBestLoop cfg lookup container sourceServer rest best maxPowerSaving
        else if maxPowerSaving.blt powerSaving then
          findBestLoop cfg lookup container sourceServer rest
            (some { containerID := container.id
                    sourceServerID := sourceServer.id
                    targetServerID := targetServer.id
                    priority := calculatePriorityF cfg powerSaving downtime
                    powerSaving := powerSaving
                    downtimeEstimate := downtime })
            powerSaving
        else
          findBestLoop cfg lookup container sourceServer rest best maxPowerSaving

/-- `findBestMigrationPlan` (planner.go:113-154). -/
def findBestMigrationPlan (cfg : PlannerConfig) (lookup : MetricsLookup)
    (container : Container) (sourceServer : Server)
    (targetServers : List Server) : Option MigrationPlan :=
  findBestLoop cfg lookup container sourceServer targetServers none (GoFloat.finite 0)

/- ===== Active-plans registry (Go map keyed by container ID) ===== -/

/-- The active-plans registry `map[string]*MigrationPlan`, modelled as an
association list; Go map semantics keep keys unique. -/
abbrev Registry := List (String × MigrationPlan)

/-- Map read `m[k]`. -/
def regGet (r : Registry) (k : String) : Option MigrationPlan :=
  match r.find? (fun e => e.1 == k) with
  | none => none
  | some e => some e.2

/-- Map write `m[k] = v`: overwrite an existing key, else append. -/
def regSet (r : Registry) (k : String) (v : MigrationPlan) : Registry :=
  if r.any (fun e => e.1 == k) then
    r.map (fun e => if e.1 == k then (k, v) else e)
  else r ++ [(k, v)]

/-- Map delete `delete(m, k)`. -/
def regDelete (r : Registry) (k : String) : Registry :=
  r.filter (fun e => !(e.1 == k))

/-- Registry well-formedness: keys are unique (Go map) and each plan is
filed under its own container identifier (true of every plan the planner
creates). -/
def RegistryWF (r : Registry) : Prop :=
  (r.map (fun e => e.1)).Nodup ∧ ∀ e ∈ r, e.2.containerID = e.1

/-- A container-enumeration oracle: `getServerContainers` (stubbed in the
source to return an empty list; the spec names it an external
orchestration collaborator, so it is kept abstract). -/
abbrev ContainersOf := String → Except GoErr (List Container)

/-- Inner loop of `planMigrations` (planner.go:96-107): per container,
skip when an active plan exists, otherwise record the best plan (if any)
under the container's ID. -/
def planContainersLoop (cfg : PlannerConfig) (lookup : MetricsLookup)
    (sourceServer : Server) (targetServers : List Server) :
    List Container → Registry → Registry
  | [], r => r
  | container :: rest, r =>
    let r' :=
      if (regGet r container.id).isSome then r
      else
        match findBestMigrationPlan cfg lookup container sourceServer targetServers with
        | none => r
        | some bestPlan => regSet r container.id bestPlan
    planContainersLoop cfg lookup sourceServer targetServers rest r'

/-- Outer loop of `planMigrations` (planner.go:84-108): servers scoring
above 70 are skipped, container enumeration failures skip the server. -/
def planServersLoop (cfg : PlannerConfig) (lookup : MetricsLookup)
    (containersOf : ContainersOf) (targetServers : List Server) :
    List Server → Registry → Registry
  | [], r => r
  | sourceServer :: rest, r =>
    let r' :=
      if getServerEcoScore lookup sourceServer.id > 70 then r
      else
        match containersOf sourceServer.id with
        | Except.error _ => r
        | Except.ok containers =>
          planContainersLoop cfg lookup sourceServer targetServers containers r
    planServersLoop cfg lookup containersOf targetServers rest r'

/-- `planMigrations` (planner.go:69-111): fetch all servers (an inventory
failure aborts the pass), sort them descending by eco-score (Go
`sort.Slice` leaves tie order unspecified; the model fixes one sorted
permutation), then run the planning loops against the sorted slice. -/
def planMigrations (cfg : PlannerConfig) (lookup : MetricsLookup)
    (containersOf : ContainersOf) (instances : Except GoErr (List Server))
    (r : Registry) : Except GoErr Registry :=
  match instances with
  | Except.error e => Except.error e
  | Except.ok servers =>
    let sorted := servers.insertionSort
      (fun a b => getServerEcoScore lookup a.id ≥ getServerEcoScore lookup b.id)
    Except.ok (planServersLoop cfg lookup containersOf sorted sorted r)

/-- `executeMigrations` (planner.go:156-197): the pass takes the registry
mutex and holds it — via `defer p.mu.Unlock()` — across the final
`wg.Wait()`.  It snapshots the active plans, sorts them by descending
priority and spawns one relocation worker per plan under a semaphore.  A
worker whose relocation fails completes without touching the registry.
A worker whose relocation succeeds next attempts `p.mu.Lock()` before
its `delete`; that non-reentrant write lock is held by the pass until
`wg.Wait()` returns, and `wg.Wait()` cannot return while the blocked
worker's deferred `wg.Done()` is pending — so the pass deadlocks, the
deletion never executes, and no final registry state is produced
(`none`).  Only a pass in which every relocation fails terminates, and
it returns the registry unchanged.  (When the pass instead stalls on a
full semaphore, some already-spawned worker has succeeded and is
blocked, so the termination condition is the same: the pass completes
iff no plan's relocation succeeds.  The configured concurrency cap is
taken positive, as the default 3 is.) -/
def executeMigrations (outcome : MigrationPlan → Bool) (r : Registry) : Option Registry :=
  let plans := (r.map (fun e => e.2)).insertionSort (fun a b => a.priority ≥ b.priority)
  if plans.any (fun plan => outcome plan) then none
  else some r

/- ===== internal/scaling/autoscaler.go ===== -/

/- AutoscalerConfig (autoscaler.go:13-20); durations in ns. -/
structure AutoscalerConfig where
  cpuThresholdHigh : ℚ
  cpuThresholdLow : ℚ
  powerThresholdHigh : ℚ
  scaleUpCooldown : Int
  scaleDownCooldown : Int
  evaluationInterval : Int
deriving DecidableEq

/-- The autoscaler's mutable cooldown state (autoscaler.go:28-29), in ns
since epoch. -/
structure AutoscalerState where
  lastScaleUp : Int
  lastScaleDown : Int
deriving DecidableEq

/-- The zero value `models.Server{}` returned when no candidate wins. -/
def zeroServer : Server :=
  { id := "", provider := "", region := "", instanceType := "", ecoScore := 0 }

/-- One relocation request issued to `provider.MigrateContainer`. -/
structure MigrationCall where
  containerID : String
  sourceID : String
  targetID : String
deriving DecidableEq

/-- A relocation oracle: whether `MigrateContainer` succeeds for a given
(container, source, target) triple. -/
abbrev MigrateOk := String → String → String → Bool

/-- `shouldScaleUp` (autoscaler.go:93-105): inside the cooldown nothing
triggers; otherwise high CPU or high power does. -/
def shouldScaleUp (cfg : AutoscalerConfig) (st : AutoscalerState) (now : Int)
    (metric : MetricData) : Bool :=
  if now - st.lastScaleUp < cfg.scaleUpCooldown then false
  else decide (metric.cpuUsage > cfg.cpuThresholdHigh) ||
       decide (metric.powerUsage > cfg.powerThresholdHigh)

/-- `shouldScaleDown` (autoscaler.go:107-116). -/
def shouldScaleDown (cfg : AutoscalerConfig) (st : AutoscalerState) (now : Int)
    (metric : MetricData) : Bool :=
  if now - st.lastScaleDown < cfg.scaleDownCooldown then false
  else decide (metric.cpuUsage < cfg.cpuThresholdLow)

/-- Selection loop of `findEnergyEfficientServer` (autoscaler.go:184-198):
running best server (zero value) and best score (0); servers whose metric
lookup fails are skipped; a candidate wins only with a strictly greater
score. -/
def findBestServerLoop (lookup : MetricsLookup) :
    List Server → Server → ℚ → Server
  | [], bestServer, _ => bestServer
  | server :: rest, bestServer, bestScore =>
    match lookup server.id with
    | none => findBestServerLoop lookup rest bestServer bestScore
    | some ms =>
      let score := CalculateEcoScore ms
      if score > bestScore then findBestServerLoop lookup rest server score
      else findBestServerLoop lookup rest bestServer bestScore

/-- `findEnergyEfficientServer` (autoscaler.go:178-201): only an
inventory failure is an error; otherwise the loop's winner (possibly the
zero-value server) is returned with a nil error. -/
def findEnergyEfficientServer (lookup : MetricsLookup)
    (instances : Except GoErr (List Server)) : Except GoErr Server :=
  match instances with
  | Except.error e => Except.error e
  | Except.ok servers => Except.ok (findBestServerLoop lookup servers zeroServer 0)

/-- `scaleUp` (autoscaler.go:118-143): pick a target (an error aborts with
the cooldown state untouched), enumerate the source's containers (same),
then relocate every container — individual failures are skipped — and
finally set `lastScaleUp` to the current time.  The result carries the
updated state, the relocation calls issued, and the returned error. -/
def scaleUp (lookup : MetricsLookup) (instances : Except GoErr (List Server))
    (containersOf : ContainersOf) (_migrateOk : MigrateOk)
    (st : AutoscalerState) (now : Int) (server : Server) :
    AutoscalerState × List MigrationCall × Option GoErr :=
  match findEnergyEfficientServer lookup instances with
  | Except.error e => (st, [], some e)
  | Except.ok targetServer =>
    match containersOf server.id with
    | Except.error e => (st, [], some e)
    | Except.ok containers =>
      let calls := containers.map
        (fun c => { containerID := c.id, sourceID := server.id,
                    targetID := targetServer.id : MigrationCall })
      ({ st with lastScaleUp := now }, calls, none)

/-- Relocation loop of `scaleDown` (autoscaler.go:168-172): the first
failing relocation aborts the loop with an error (after issuing the
failing call). -/
def scaleDownMigrateLoop (migrateOk : MigrateOk) (sourceID targetID : String) :
    List Container → List MigrationCall → List MigrationCall × Option GoErr
  | [], calls => (calls, none)
  | c :: rest, calls =>
    let call : MigrationCall :=
      { containerID := c.id, sourceID := sourceID, targetID := targetID }
    if migrateOk c.id sourceID targetID then
      scaleDownMigrateLoop migrateOk sourceID targetID rest (calls ++ [call])
    else (calls ++ [call], some "migration failed")

/-- `scaleDown` (autoscaler.go:145-176): the eco-score short-circuit is
computed over a freshly allocated empty slice — `[]models.MetricData{}`
in the source — not over the server's retained samples; then target
selection and container enumeration (an error in either aborts with the
state untouched), then the strict relocation loop, and only after its
completion `lastScaleDown` is set. -/
def scaleDown (lookup : MetricsLookup) (instances : Except GoErr (List Server))
    (containersOf : ContainersOf) (migrateOk : MigrateOk)
    (st : AutoscalerState) (now : Int) (server : Server) :
    AutoscalerState × List MigrationCall × Option GoErr :=
  let ecoScore := CalculateEcoScore []
  if ecoScore > 80 then (st, [], none)
  else
    match findEnergyEfficientServer lookup instances with
    | Except.error e => (st, [], some e)
    | Except.ok targetServer =>
      match containersOf server.id with
      | Except.error e => (st, [], some e)
      | Except.ok containers =>
        match scaleDownMigrateLoop migrateOk server.id targetServer.id containers [] with
        | (calls, some e) => (st, calls, some e)
        | (calls, none) => ({ st with lastScaleDown := now }, calls, none)

/- ===== Metric store (src/unnamed/part_004, package metrics) ===== -/

/- CollectorConfig (part_004); durations in ns, sizes as Go ints. -/
structure CollectorConfig where
  retentionPeriod : Int
  collectionInterval : Int
  batchSize : Int
  bufferSize : Nat
deriving DecidableEq

/- MetricBatch (part_004). -/
structure MetricBatch where
  serverID : String
  metrics : List MetricData
  timestamp : Int
deriving DecidableEq

/-- `CollectMetrics` (part_004:145-158): wrap the sample in a one-element
batch and try a non-blocking channel send; a full buffer returns the
"metric buffer is full" error and leaves the buffer untouched.  A Go
buffered channel is a FIFO queue bounded by its capacity. -/
def CollectMetrics (bufferSize : Nat) (buffer : List MetricBatch)
    (serverID : String) (data : MetricData) (now : Int) :
    List MetricBatch × Option GoErr :=
  let batch : MetricBatch := { serverID := serverID, metrics := [data], timestamp := now }
  if buffer.length < bufferSize then (buffer ++ [batch], none)
  else (buffer, some "metric buffer is full")

/-- One server's share of a `cleanupOldMetrics` sweep (part_004:170-194):
keep exactly the samples whose timestamp (Unix seconds, converted to a
nanosecond instant by `time.Unix`) is strictly after `now - retention`. -/
def cleanupSweepServer (retentionNs nowNs : Int) (data : List MetricData) :
    List MetricData :=
  let cutoff := nowNs - retentionNs
  data.filter (fun m => m.timestamp * 1000000000 > cutoff)

/-- A full `cleanupOldMetrics` sweep over the per-server map. -/
def cleanupOldMetrics (retentionNs nowNs : Int)
    (metrics : List (String × List MetricData)) : List (String × List MetricData) :=
  metrics.map (fun e => (e.1, cleanupSweepServer retentionNs nowNs e.2))

/- ===== Concrete inputs used by counterexamples and witnesses ===== -/

/-- A sample set meeting C1's stated hypotheses (power 0 W ≥ 0, carbon
0 kg ≥ 0) on which the composite score is nevertheless negative: the CPU
reading 1000 (%) makes the unclamped utilization component
`1 - |0.7 - 10| = -8.3`. -/
def c1CexMetrics : List MetricData :=
  [{ serverID := "s1", timestamp := 0, powerUsage := 0, carbonFootprint := 0,
     cpuUsage := 1000, memoryUsage := 0 }]

/-- Concrete well-formed sample set for the C1 witness. -/
def c1WitnessMetrics : List MetricData :=
  [{ serverID := "s1", timestamp := 0, powerUsage := 500, carbonFootprint := 1/2,
     cpuUsage := 70, memoryUsage := 50 }]

/-- Container used by the power-saving counterexample and witness. -/
def c3Container : Container :=
  { id := "c1", serverID := "s3", serviceName := "svc", ecoTags := [],
    powerUsage := 100 }

/-- Source server for the power-saving counterexample. -/
def c3Source : Server :=
  { id := "s3", provider := "aws", region := "eu-west-1", instanceType := "m5",
    ecoScore := 0 }

/-- Target server for the power-saving counterexample. -/
def c3Target : Server :=
  { id := "s4", provider := "aws", region := "eu-west-1", instanceType := "m5",
    ecoScore := 0 }

/-- A metrics lookup that fails for every server, so every eco-score is 0. -/
def c3NoLookup : MetricsLookup := fun _ => none

/-- Samples giving the source server a perfect score of 100. -/
def c3WitnessMetrics : List MetricData :=
  [{ serverID := "s3", timestamp := 0, powerUsage := 0, carbonFootprint := 0,
     cpuUsage := 70, memoryUsage := 0 }]

/-- A lookup where only the source server has samples. -/
def c3WitnessLookup : MetricsLookup :=
  fun sid => if sid = "s3" then some c3WitnessMetrics else none

/-- The spec's stated priority formula (spec §4.4): ROUND the scaled
saving, reduce by 2 on long downtime, clamp to [1,10].  Written from the
spec's words to compare against `calculatePriority` from the source. -/
def specPriority (cfg : PlannerConfig) (powerSaving : ℚ) (downtime : Int) : Int :=
  let priority := round (powerSaving / cfg.minPowerSaving * 10)
  let priority := if downtime > cfg.maxDowntime.tdiv 2 then priority - 2 else priority
  min 10 (max 1 priority)

/-- Autoscaler configuration used by the concrete evaluations. -/
def c2Cfg : AutoscalerConfig :=
  { cpuThresholdHigh := 80, cpuThresholdLow := 20, powerThresholdHigh := 900,
    scaleUpCooldown := 300, scaleDownCooldown := 300, evaluationInterval := 60 }

/-- Initial autoscaler state (no scaling has happened yet). -/
def c2St : AutoscalerState := { lastScaleUp := 0, lastScaleDown := 0 }

/-- A concrete source server. -/
def c2Src : Server :=
  { id := "s1", provider := "aws", region := "eu", instanceType := "m5", ecoScore := 0 }

/-- A concrete target server. -/
def c2Tgt : Server :=
  { id := "s2", provider := "aws", region := "eu", instanceType := "m5", ecoScore := 0 }

/-- Retained samples of the source server: zero power and carbon, CPU 10 %,
scoring 82 (above the scale-down short-circuit threshold of 80) while the
latest CPU reading is below the low threshold of 20. -/
def c2SrcMetrics : List MetricData :=
  [{ serverID := "s1", timestamp := 0, powerUsage := 0, carbonFootprint := 0,
     cpuUsage := 10, memoryUsage := 0 }]

/-- Retained samples of the target server, scoring a perfect 100. -/
def c2TgtMetrics : List MetricData :=
  [{ serverID := "s2", timestamp := 0, powerUsage := 0, carbonFootprint := 0,
     cpuUsage := 70, memoryUsage := 0 }]

/-- Metrics lookup for the two-server fleet. -/
def c2Lookup : MetricsLookup :=
  fun sid => if sid = "s1" then some c2SrcMetrics
    else if sid = "s2" then some c2TgtMetrics else none

/-- Container enumeration giving every server one container `c1`. -/
def c2ContainersOf : ContainersOf :=
  fun _ => Except.ok
    [{ id := "c1", serverID := "s1", serviceName := "svc", ecoTags := [],
       powerUsage := 50 }]

/-- A concrete sample for the ingestion witness. -/
def c7Data : MetricData :=
  { serverID := "s1", timestamp := 0, powerUsage := 100, carbonFootprint := 0,
    cpuUsage := 50, memoryUsage := 50 }

/-- A sample sitting exactly on the retention-window boundary
(timestamp 0 = sweep time − retention). -/
def c8Sample : MetricData :=
  { serverID := "s1", timestamp := 0, powerUsage := 100, carbonFootprint := 0,
    cpuUsage := 50, memoryUsage := 50 }

/-- The boundary sample as a server's retained sequence. -/
def c8Data : List MetricData := [c8Sample]

/-- A sample strictly inside the retention window. -/
def c8KeepSample : MetricData :=
  { serverID := "s1", timestamp := 10, powerUsage := 100, carbonFootprint := 0,
    cpuUsage := 50, memoryUsage := 50 }

/-- The strictly-inside sample as a server's retained sequence. -/
def c8KeepData : List MetricData := [c8KeepSample]

/-- Planner configuration for the priority counterexample
(`MinPowerSaving = 10` W, `MaxDowntime = 100` ns). -/
def c4Cfg : PlannerConfig :=
  { minPowerSaving := 10, maxDowntime := 100, planningInterval := 0,
    concurrentMigrations := 3 }

/-- A concrete migration plan for the registry witnesses. -/
def c6Plan : MigrationPlan :=
  { containerID := "c1", sourceServerID := "s1", targetServerID := "s2",
    priority := 5, powerSaving := GoFloat.finite 120,
    downtimeEstimate := 30 * 1000000000 }

/-- A concrete one-plan registry. -/
def c6Reg : Registry := [("c1", c6Plan)]

end Platypus

namespace Platypus

/- ===== C1: composite score range ===== -/

/-- C1 counterexample: for a non-empty sample set whose samples all have
non-negative power draw and non-negative carbon footprint, the composite
efficiency score can still fall outside [0,100] (here −179), because the
utilization component is not clamped non-negative before weighting. -/
theorem calculateEfficiencyScore_below_zero :
    (∀ m ∈ c1CexMetrics, 0 ≤ m.powerUsage ∧ 0 ≤ m.carbonFootprint) ∧
    c1CexMetrics ≠ [] ∧
    calculateEfficiencyScore c1CexMetrics = -179 := by
  refine ⟨?_, ?_, ?_⟩
  · intro m hm
    rw [c1CexMetrics, List.mem_singleton] at hm
    subst hm
    exact ⟨le_refl 0, le_refl 0⟩
  · simp [c1CexMetrics]
  · have h : |(93:ℚ)/10| = 93/10 := abs_of_nonneg (by norm_num)
    norm_num [c1CexMetrics, calculateEfficiencyScore, calculatePowerScore,
      calculateUtilizationScore, calculateCarbonScore, calculateMean, h]

/-- Sums of lists bounded above elementwise are bounded by `length * b`. -/
theorem list_sum_le_length_mul (l : List ℚ) (b : ℚ) (h : ∀ x ∈ l, x ≤ b) :
    l.sum ≤ (l.length : ℚ) * b := by
  induction l with
  | nil => simp
  | cons x xs ih =>
    have hx := h x (List.mem_cons_self x xs)
    have hxs := ih (fun y hy => h y (List.mem_cons_of_mem x hy))
    simp only [List.sum_cons, List.length_cons]
    push_cast
    linarith

/-- C1 (amended): if additionally every sample's CPU utilization lies in
[0,100] (it is a percentage), the composite efficiency score is in
[0,100]; the power and carbon components are clamped non-negative by
`max 0 _`, and under the CPU bound the (unclamped) utilization component
is also non-negative. -/
theorem calculateEfficiencyScore_bounds (metrics : List MetricData)
    (hne : metrics ≠ [])
    (hval : ∀ m ∈ metrics, 0 ≤ m.powerUsage ∧ 0 ≤ m.carbonFootprint ∧
      0 ≤ m.cpuUsage ∧ m.cpuUsage ≤ 100) :
    0 ≤ calculateEfficiencyScore metrics ∧
    calculateEfficiencyScore metrics ≤ 100 ∧
    0 ≤ calculatePowerScore metrics ∧
    0 ≤ calculateCarbonScore metrics ∧
    0 ≤ calculateUtilizationScore metrics := by
  have hlen : 0 < (metrics.length : ℚ) := by
    exact_mod_cast List.length_pos.mpr hne
  -- power component
  have hmean : 0 ≤ calculateMean metrics := by
    refine div_nonneg (List.sum_nonneg ?_) (le_of_lt hlen)
    intro x hx
    obtain ⟨m, hm, rfl⟩ := List.mem_map.mp hx
    exact (hval m hm).1
  have hp0 : 0 ≤ calculatePowerScore metrics := le_max_left 0 _
  have hp1 : calculatePowerScore metrics ≤ 1 := by
    refine max_le (by norm_num) ?_
    have : 0 ≤ calculateMean metrics / 1000 := by positivity
    linarith
  -- carbon component
  have hcavg : 0 ≤ (metrics.map (·.carbonFootprint)).sum / (metrics.length : ℚ) := by
    refine div_nonneg (List.sum_nonneg ?_) (le_of_lt hlen)
    intro x hx
    obtain ⟨m, hm, rfl⟩ := List.mem_map.mp hx
    exact (hval m hm).2.1
  have hc0 : 0 ≤ calculateCarbonScore metrics := le_max_left 0 _
  have hc1 : calculateCarbonScore metrics ≤ 1 := by
    refine max_le (by norm_num) ?_
    linarith [hcavg]
  -- utilization component
  have hitem : ∀ x ∈ metrics.map (fun m => 1 - |(0.7 : ℚ) - m.cpuUsage / 100|),
      0 ≤ x ∧ x ≤ 1 := by
    intro x hx
    obtain ⟨m, hm, rfl⟩ := List.mem_map.mp hx
    obtain ⟨-, -, hcl, hch⟩ := hval m hm
    have h1 : m.cpuUsage / 100 ≤ 1 := by linarith
    have h2 : 0 ≤ m.cpuUsage / 100 := by positivity
    have habs : |(0.7 : ℚ) - m.cpuUsage / 100| ≤ 1 := by
      rw [abs_le]
      constructor <;> [linarith; linarith]
    have habs0 : 0 ≤ |(0.7 : ℚ) - m.cpuUsage / 100| := abs_nonneg _
    exact ⟨by linarith, by linarith⟩
  have husum0 : 0 ≤ (metrics.map (fun m => 1 - |(0.7 : ℚ) - m.cpuUsage / 100|)).sum :=
    List.sum_nonneg (fun x hx => (hitem x hx).1)
  have husum1 : (metrics.map (fun m => 1 - |(0.7 : ℚ) - m.cpuUsage / 100|)).sum ≤
      (metrics.length : ℚ) := by
    have := list_sum_le_length_mul _ 1 (fun x hx => (hitem x hx).2)
    simpa using this
  have hu0 : 0 ≤ calculateUtilizationScore metrics :=
    div_nonneg husum0 (le_of_lt hlen)
  have hu1 : calculateUtilizationScore metrics ≤ 1 := by
    rw [calculateUtilizationScore, div_le_one hlen]
    exact husum1
  -- composite
  have hne' : metrics.length ≠ 0 := fun h => hne (List.length_eq_zero.mp h)
  rw [calculateEfficiencyScore, if_neg hne']
  refine ⟨?_, ?_, hp0, hc0, hu0⟩ <;> nlinarith [hp0, hp1, hc0, hc1, hu0, hu1]

/-- C1 witness: the amended bound instantiated on a concrete sample set. -/
theorem calculateEfficiencyScore_bounds_witness :
    0 ≤ calculateEfficiencyScore c1WitnessMetrics ∧
    calculateEfficiencyScore c1WitnessMetrics ≤ 100 ∧
    0 ≤ calculatePowerScore c1WitnessMetrics ∧
    0 ≤ calculateCarbonScore c1WitnessMetrics ∧
    0 ≤ calculateUtilizationScore c1WitnessMetrics :=
  calculateEfficiencyScore_bounds c1WitnessMetrics
    (by simp [c1WitnessMetrics])
    (by
      intro m hm
      rw [c1WitnessMetrics, List.mem_singleton] at hm
      subst hm
      norm_num)

end Platypus
namespace Platypus

theorem regGet_cons_pos (e : String × MigrationPlan) (rest : Registry) (k : String)
    (h : e.1 = k) : regGet (e :: rest) k = some e.2 := by
  simp [regGet, List.find?_cons_of_pos, h]

theorem regGet_cons_neg (e : String × MigrationPlan) (rest : Registry) (k : String)
    (h : e.1 ≠ k) : regGet (e :: rest) k = regGet rest k := by
  rw [regGet, List.find?_cons_of_neg, ← regGet]
  simp [h]
end Platypus
namespace Platypus

theorem findBestLoop_cid (cfg : PlannerConfig) (lookup : MetricsLookup)
    (container : Container) (sourceServer : Server) :
    ∀ (ts : List Server) (best : Option MigrationPlan) (maxPS : GoFloat),
      (∀ pl, best = some pl → pl.containerID = container.id) →
      ∀ pl, findBestLoop cfg lookup container sourceServer ts best maxPS = some pl →
        pl.containerID = container.id := by
  intro ts
  induction ts with
  | nil =>
    intro best maxPS hbest pl h
    rw [findBestLoop] at h
    exact hbest pl h
  | cons t rest ih =>
    intro best maxPS hbest pl h
    simp only [findBestLoop] at h
    split_ifs at h with h1 h2 h3 h4
    · exact ih best maxPS hbest pl h
    · exact ih best maxPS hbest pl h
    · exact ih best maxPS hbest pl h
    · refine ih _ _ ?_ pl h
      intro pl' hpl'
      cases hpl'
      rfl
    · exact ih best maxPS hbest pl h

end Platypus
namespace Platypus

/- ===== C6: active-plans registry under executeMigrations ===== -/

/-- C6: evaluation at the failing input.  On a registry holding one plan
whose relocation succeeds, `executeMigrations` deadlocks: the successful
worker blocks at `p.mu.Lock()` — held by the pass across `wg.Wait()` —
before it can delete its plan, so no final registry is ever produced
(`none`) and the plan is still registered, where the claim requires it
to be absent after the successful relocation.  A pass in which every
relocation fails does complete, with the plan present and unchanged. -/
theorem executeMigrations_success_deadlocks :
    regGet c6Reg "c1" = some c6Plan ∧
    executeMigrations (fun _ => true) c6Reg = none ∧
    executeMigrations (fun _ => false) c6Reg = some c6Reg :=
  ⟨rfl, rfl, rfl⟩

/- ===== C3: power-saving estimate and the missing zero guard ===== -/

/-- The subtraction/multiplication chain of `estimatePowerSaving` is
non-finite whenever the source eco-score divisor is zero. -/
theorem div_zero_nonfinite (p t : ℚ) :
    ((GoFloat.finite p).sub ((GoFloat.finite p).mul
      ((GoFloat.finite t).div (GoFloat.finite 0)))).isFinite = false := by
  simp only [GoFloat.div, if_pos rfl]
  split_ifs <;>
    simp only [GoFloat.mul, GoFloat.sub, GoFloat.isFinite] <;>
    split_ifs <;> rfl

/-- C3 counterexample: with every metrics lookup failing, the source
eco-score is 0 and `estimatePowerSaving` evaluates to IEEE NaN — the
division is not guarded and no defined (finite) sentinel is returned. -/
theorem estimatePowerSaving_unguarded :
    getServerEcoScore c3NoLookup c3Source.id = 0 ∧
    estimatePowerSaving c3NoLookup c3Container c3Source c3Target = GoFloat.nan ∧
    (estimatePowerSaving c3NoLookup c3Container c3Source c3Target).isFinite = false :=
  ⟨rfl, rfl, rfl⟩

/-- C3 (amended): when the source eco-score is non-zero the estimate
equals `source_power * (1 - target_ecoscore / source_ecoscore)` exactly;
when the source eco-score is zero there is no guard — the IEEE division
produces a non-finite value (NaN or ±infinity, never a fault and never a
defined sentinel). -/
theorem estimatePowerSaving_cases (lookup : MetricsLookup) (container : Container)
    (sourceServer targetServer : Server) :
    (getServerEcoScore lookup sourceServer.id ≠ 0 →
      estimatePowerSaving lookup container sourceServer targetServer =
        GoFloat.finite (container.powerUsage *
          (1 - getServerEcoScore lookup targetServer.id /
               getServerEcoScore lookup sourceServer.id))) ∧
    (getServerEcoScore lookup sourceServer.id = 0 →
      (estimatePowerSaving lookup container sourceServer targetServer).isFinite = false) := by
  constructor
  · intro hns
    simp only [estimatePowerSaving, GoFloat.div, GoFloat.mul, GoFloat.sub, if_neg hns]
    congr 1
    ring
  · intro h0
    rw [estimatePowerSaving, h0]
    exact div_zero_nonfinite _ _

/-- C3 witness: the formula branch instantiated where the source server
scores 100 and the target has no samples. -/
theorem estimatePowerSaving_cases_witness :
    estimatePowerSaving c3WitnessLookup c3Container c3Source c3Target =
      GoFloat.finite (c3Container.powerUsage *
        (1 - getServerEcoScore c3WitnessLookup c3Target.id /
             getServerEcoScore c3WitnessLookup c3Source.id)) :=
  (estimatePowerSaving_cases c3WitnessLookup c3Container c3Source c3Target).1
    (by
      have h : |(0.7 : ℚ) - 70/100| = 0 := by norm_num
      norm_num [getServerEcoScore, c3WitnessLookup, c3Source, c3WitnessMetrics,
        CalculateEcoScore, calculateEfficiencyScore, calculatePowerScore,
        calculateUtilizationScore, calculateCarbonScore, calculateMean, h])

/- ===== C4: plan priority ===== -/

/-- C4 counterexample: at `MinPowerSaving = 10`, saving `9.9` and zero
downtime the source computes `int(9.9) = 9` (Go conversion truncates),
while the claim's `round((s/MinPowerSaving)*10)` formula yields 10. -/
theorem calculatePriority_truncates :
    calculatePriority c4Cfg (99/10) 0 = 9 ∧
    specPriority c4Cfg (99/10) 0 = 10 := by
  constructor <;>
    norm_num [calculatePriority, specPriority, c4Cfg, goTrunc, Int.tdiv, round_eq]

/-- C4 (amended): `calculatePriority` equals the claim's formula with
TRUNCATION toward zero in place of rounding: `trunc((s/MinPowerSaving)*10)`,
reduced by 2 when the downtime exceeds `MaxDowntime/2`, clamped to [1,10];
in particular the result always lies in [1,10]. -/
theorem calculatePriority_clamped (cfg : PlannerConfig) (s : ℚ) (d : Int) :
    calculatePriority cfg s d =
      min 10 (max 1 (goTrunc (s / cfg.minPowerSaving * 10) -
        (if d > cfg.maxDowntime.tdiv 2 then 2 else 0))) ∧
    1 ≤ calculatePriority cfg s d ∧ calculatePriority cfg s d ≤ 10 := by
  simp only [calculatePriority]
  split_ifs <;> omega

end Platypus
namespace Platypus

/- ===== C2, C5, C9, C10: autoscaler ===== -/

/-- The source server's own samples score 82. -/
theorem c2_src_score : CalculateEcoScore c2SrcMetrics = 82 := by
  have h : |(3:ℚ)/5| = 3/5 := abs_of_nonneg (by norm_num)
  norm_num [c2SrcMetrics, CalculateEcoScore, calculateEfficiencyScore,
    calculatePowerScore, calculateUtilizationScore, calculateCarbonScore,
    calculateMean, h]

/-- The target server's samples score 100. -/
theorem c2_tgt_score : CalculateEcoScore c2TgtMetrics = 100 := by
  have h : |(0.7:ℚ) - 70/100| = 0 := by norm_num
  norm_num [c2TgtMetrics, CalculateEcoScore, calculateEfficiencyScore,
    calculatePowerScore, calculateUtilizationScore, calculateCarbonScore,
    calculateMean, h]

/-- C2: evaluation at the failing input.  Server `s1` satisfies the
scale-down condition (cpu 10 below the threshold 20, cooldown elapsed)
and its own retained samples score 82 > 80, so per the claim the pass
must leave all state unchanged.  The source instead computes the
eco-score of a freshly allocated empty slice (`CalculateEcoScore([])`,
always 0, never above 80), so it proceeds: it relocates the container
and updates `lastScaleDown`. -/
theorem scaleDown_ignores_own_score :
    shouldScaleDown c2Cfg c2St 1000
      { serverID := "s1", timestamp := 0, powerUsage := 0, carbonFootprint := 0,
        cpuUsage := 10, memoryUsage := 0 } = true ∧
    CalculateEcoScore c2SrcMetrics = 82 ∧
    CalculateEcoScore ([] : List MetricData) = 0 ∧
    scaleDown c2Lookup (Except.ok [c2Src, c2Tgt]) c2ContainersOf
      (fun _ _ _ => true) c2St 1000 c2Src =
      ({ lastScaleUp := 0, lastScaleDown := 1000 },
       [{ containerID := "c1", sourceID := "s1", targetID := "s2" }], none) := by
  refine ⟨?_, c2_src_score, rfl, ?_⟩
  · norm_num [shouldScaleDown, c2Cfg, c2St]
  · have h0 : ¬(CalculateEcoScore [] > 80) := by
      norm_num [CalculateEcoScore, calculateEfficiencyScore]
    have hl1 : c2Lookup c2Src.id = some c2SrcMetrics := rfl
    have hl2 : c2Lookup c2Tgt.id = some c2TgtMetrics := rfl
    have hloop : findBestServerLoop c2Lookup [c2Src, c2Tgt] zeroServer 0 = c2Tgt := by
      norm_num [findBestServerLoop, hl1, hl2, c2_src_score, c2_tgt_score]
    have hsid : c2Src.id = "s1" := rfl
    have htid : c2Tgt.id = "s2" := rfl
    norm_num [scaleDown, h0, findEnergyEfficientServer, hloop, hsid, htid,
      c2ContainersOf, scaleDownMigrateLoop, c2St]

/-- C5 counterexample: in a fleet whose only member is the source server
itself, `findEnergyEfficientServer` (which never excludes the source)
returns the source, and the scale-up pass issues a relocation whose
target equals its source — contradicting "the target is never equal to
the source server". -/
theorem scaleUp_target_can_equal_source :
    findEnergyEfficientServer c2Lookup (Except.ok [c2Src]) = Except.ok c2Src ∧
    scaleUp c2Lookup (Except.ok [c2Src]) c2ContainersOf (fun _ _ _ => true)
      c2St 1000 c2Src =
      ({ lastScaleUp := 1000, lastScaleDown := 0 },
       [{ containerID := "c1", sourceID := "s1", targetID := "s1" }], none) := by
  have hl1 : c2Lookup c2Src.id = some c2SrcMetrics := rfl
  have hloop : findBestServerLoop c2Lookup [c2Src] zeroServer 0 = c2Src := by
    norm_num [findBestServerLoop, hl1, c2_src_score]
  have hsid : c2Src.id = "s1" := rfl
  constructor
  · rw [findEnergyEfficientServer, hloop]
  · norm_num [scaleUp, findEnergyEfficientServer, hloop, hsid, c2ContainersOf, c2St]

/-- Invariant of the target-selection loop: the result is either the
running best (when nothing beats the running score) or a listed server
whose score strictly beats the running score and dominates the list. -/
theorem findBestServerLoop_spec (lookup : MetricsLookup) :
    ∀ (servers : List Server) (best : Server) (bestScore : ℚ),
      0 ≤ bestScore →
      (findBestServerLoop lookup servers best bestScore = best ∧
        ∀ s ∈ servers, getServerEcoScore lookup s.id ≤ bestScore) ∨
      (findBestServerLoop lookup servers best bestScore ∈ servers ∧
        bestScore < getServerEcoScore lookup
          (findBestServerLoop lookup servers best bestScore).id ∧
        ∀ s ∈ servers, getServerEcoScore lookup s.id ≤
          getServerEcoScore lookup (findBestServerLoop lookup servers best bestScore).id) := by
  intro servers
  induction servers with
  | nil =>
    intro best bestScore h0
    left
    constructor
    · rw [findBestServerLoop]
    · intro s hs; exact absurd hs (List.not_mem_nil s)
  | cons s rest ih =>
    intro best bestScore h0
    cases hls : lookup s.id with
    | none =>
      have hs0 : getServerEcoScore lookup s.id = 0 := by
        rw [getServerEcoScore, hls]
      have hred : findBestServerLoop lookup (s :: rest) best bestScore =
          findBestServerLoop lookup rest best bestScore := by
        simp only [findBestServerLoop, hls]
      rw [hred]
      rcases ih best bestScore h0 with ⟨hb, hall⟩ | ⟨hmem, hgt, hall⟩
      · left
        refine ⟨hb, fun s' hs' => ?_⟩
        rcases List.mem_cons.mp hs' with hs' | hs'
        · subst hs'; rw [hs0]; exact h0
        · exact hall s' hs'
      · right
        refine ⟨List.mem_cons_of_mem s hmem, hgt, fun s' hs' => ?_⟩
        rcases List.mem_cons.mp hs' with hs' | hs'
        · subst hs'; rw [hs0]; exact le_of_lt (lt_of_le_of_lt h0 hgt)
        · exact hall s' hs'
    | some ms =>
      have hs_score : getServerEcoScore lookup s.id = CalculateEcoScore ms := by
        rw [getServerEcoScore, hls]
      by_cases hgt : CalculateEcoScore ms > bestScore
      · have hred : findBestServerLoop lookup (s :: rest) best bestScore =
            findBestServerLoop lookup rest s (CalculateEcoScore ms) := by
          simp only [findBestServerLoop, hls, if_pos hgt]
        rw [hred]
        have hsc0 : 0 ≤ CalculateEcoScore ms := le_of_lt (lt_of_le_of_lt h0 hgt)
        rcases ih s (CalculateEcoScore ms) hsc0 with ⟨hb, hall⟩ | ⟨hmem, hgt2, hall⟩
        · right
          rw [hb]
          refine ⟨List.mem_cons_self s rest, ?_, fun s' hs' => ?_⟩
          · rw [hs_score]; exact hgt
          · rcases List.mem_cons.mp hs' with hs' | hs'
            · subst hs'; rw [hs_score]
            · rw [hs_score]; exact hall s' hs'
        · right
          refine ⟨List.mem_cons_of_mem s hmem, ?_, fun s' hs' => ?_⟩
          · exact lt_trans hgt (hs_score ▸ hgt2)
          · rcases List.mem_cons.mp hs' with hs' | hs'
            · subst hs'
              rw [hs_score]
              exact le_of_lt (hs_score ▸ hgt2)
            · exact hall s' hs'
      · have hred : findBestServerLoop lookup (s :: rest) best bestScore =
            findBestServerLoop lookup rest best bestScore := by
          simp only [findBestServerLoop, hls, if_neg hgt]
        rw [hred]
        rcases ih best bestScore h0 with ⟨hb, hall⟩ | ⟨hmem, hgt2, hall⟩
        · left
          refine ⟨hb, fun s' hs' => ?_⟩
          rcases List.mem_cons.mp hs' with hs' | hs'
          · subst hs'; rw [hs_score]; exact le_of_not_lt hgt
          · exact hall s' hs'
        · right
          refine ⟨List.mem_cons_of_mem s hmem, hgt2, fun s' hs' => ?_⟩
          rcases List.mem_cons.mp hs' with hs' | hs'
          · subst hs'
            rw [hs_score]
            exact le_of_lt (lt_of_le_of_lt (le_of_not_lt hgt) hgt2)
          · exact hall s' hs'

/-- C5 (amended): the chosen relocation target maximises the eco-score
over ALL known servers — the source is never excluded, so the target can
equal the source (see the counterexample); when no server has a strictly
positive score the zero-value server is chosen. -/
theorem findEnergyEfficientServer_max (lookup : MetricsLookup) (servers : List Server)
    (result : Server)
    (h : findEnergyEfficientServer lookup (Except.ok servers) = Except.ok result) :
    (result = zeroServer ∧ ∀ s ∈ servers, getServerEcoScore lookup s.id ≤ 0) ∨
    (result ∈ servers ∧ 0 < getServerEcoScore lookup result.id ∧
      ∀ s ∈ servers, getServerEcoScore lookup s.id ≤ getServerEcoScore lookup result.id) := by
  rw [findEnergyEfficientServer, Except.ok.injEq] at h
  rcases findBestServerLoop_spec lookup servers zeroServer 0 (le_refl 0) with
    ⟨hb, hall⟩ | ⟨hmem, hgt, hall⟩
  · left
    exact ⟨h ▸ hb, hall⟩
  · right
    rw [← h]
    exact ⟨hmem, hgt, hall⟩

/-- C5 witness: the selection characterisation on the one-server fleet. -/
theorem findEnergyEfficientServer_max_witness :
    (c2Src = zeroServer ∧ ∀ s ∈ [c2Src], getServerEcoScore c2Lookup s.id ≤ 0) ∨
    (c2Src ∈ [c2Src] ∧ 0 < getServerEcoScore c2Lookup c2Src.id ∧
      ∀ s ∈ [c2Src], getServerEcoScore c2Lookup s.id ≤
        getServerEcoScore c2Lookup c2Src.id) :=
  findEnergyEfficientServer_max c2Lookup [c2Src] c2Src
    (by
      have hl1 : c2Lookup c2Src.id = some c2SrcMetrics := rfl
      have hloop : findBestServerLoop c2Lookup [c2Src] zeroServer 0 = c2Src := by
        norm_num [findBestServerLoop, hl1, c2_src_score]
      rw [findEnergyEfficientServer, hloop])

/-- When no listed server scores strictly above 0 the loop keeps its
initial best server. -/
theorem findBestServerLoop_all_nonpos (lookup : MetricsLookup) :
    ∀ (servers : List Server) (best : Server),
      (∀ s ∈ servers, getServerEcoScore lookup s.id ≤ 0) →
      findBestServerLoop lookup servers best 0 = best := by
  intro servers
  induction servers with
  | nil => intro best _; rw [findBestServerLoop]
  | cons s rest ih =>
    intro best hall
    cases hls : lookup s.id with
    | none =>
      rw [show findBestServerLoop lookup (s :: rest) best 0 =
          findBestServerLoop lookup rest best 0 by simp only [findBestServerLoop, hls]]
      exact ih best (fun s' hs' => hall s' (List.mem_cons_of_mem s hs'))
    | some ms =>
      have hsc : ¬(CalculateEcoScore ms > 0) := by
        have := hall s (List.mem_cons_self s rest)
        rw [getServerEcoScore, hls] at this
        exact not_lt.mpr this
      rw [show findBestServerLoop lookup (s :: rest) best 0 =
          findBestServerLoop lookup rest best 0 by
        simp only [findBestServerLoop, hls, if_neg hsc]]
      exact ih best (fun s' hs' => hall s' (List.mem_cons_of_mem s hs'))

/-- C10: when no server yields a strictly positive eco-score (empty
fleet, failing lookups, or non-positive scores), `findEnergyEfficientServer`
returns the zero-value `Server` with a nil error, and the scale-up pass
proceeds to issue one relocation per container targeting the empty
server identifier instead of failing. -/
theorem findEnergyEfficientServer_zero_fleet (lookup : MetricsLookup)
    (servers : List Server) (containersOf : ContainersOf) (migrateOk : MigrateOk)
    (st : AutoscalerState) (now : Int) (server : Server) (cs : List Container)
    (hall : ∀ s ∈ servers, getServerEcoScore lookup s.id ≤ 0)
    (hcs : containersOf server.id = Except.ok cs) :
    findEnergyEfficientServer lookup (Except.ok servers) = Except.ok zeroServer ∧
    scaleUp lookup (Except.ok servers) containersOf migrateOk st now server =
      ({ st with lastScaleUp := now },
       cs.map (fun c => { containerID := c.id, sourceID := server.id, targetID := "" }),
       none) := by
  have hfind : findEnergyEfficientServer lookup (Except.ok servers) =
      Except.ok zeroServer := by
    rw [findEnergyEfficientServer, findBestServerLoop_all_nonpos lookup servers zeroServer hall]
  refine ⟨hfind, ?_⟩
  rw [scaleUp, hfind]
  simp only [hcs]
  rfl

/-- C10 witness: one unmonitored server, one container, relocated to the
empty identifier. -/
theorem findEnergyEfficientServer_zero_fleet_witness :
    findEnergyEfficientServer c3NoLookup (Except.ok [c3Source]) = Except.ok zeroServer ∧
    scaleUp c3NoLookup (Except.ok [c3Source]) (fun _ => Except.ok [c3Container])
      (fun _ _ _ => true) c2St 1000 c3Source =
      ({ c2St with lastScaleUp := 1000 },
       [c3Container].map (fun c =>
         { containerID := c.id, sourceID := c3Source.id, targetID := "" }),
       none) :=
  findEnergyEfficientServer_zero_fleet c3NoLookup [c3Source]
    (fun _ => Except.ok [c3Container]) (fun _ _ _ => true) c2St 1000 c3Source
    [c3Container]
    (by
      intro s hs
      rw [List.mem_singleton] at hs
      subst hs
      rw [getServerEcoScore]
      norm_num [c3NoLookup])
    rfl

/-- C9: when target selection fails (inventory error) or container
enumeration fails, both scaling passes return the cooldown state
untouched together with a non-nil error, so the failed pass does not
suppress a retry on the next evaluation tick. -/
theorem cooldown_unchanged_on_error (lookup : MetricsLookup)
    (instances : Except GoErr (List Server)) (containersOf : ContainersOf)
    (migrateOk : MigrateOk) (st : AutoscalerState) (now : Int) (server : Server)
    (h : (∃ e, instances = Except.error e) ∨
         ((∃ svs, instances = Except.ok svs) ∧ ∃ e, containersOf server.id = Except.error e)) :
    (scaleUp lookup instances containersOf migrateOk st now server).1 = st ∧
    ((scaleUp lookup instances containersOf migrateOk st now server).2.2).isSome = true ∧
    (scaleDown lookup instances containersOf migrateOk st now server).1 = st ∧
    ((scaleDown lookup instances containersOf migrateOk st now server).2.2).isSome = true := by
  have h80 : ¬(CalculateEcoScore [] > 80) := by
    norm_num [CalculateEcoScore, calculateEfficiencyScore]
  rcases h with ⟨e, rfl⟩ | ⟨⟨svs, rfl⟩, e, hce⟩
  · refine ⟨rfl, rfl, ?_, ?_⟩ <;>
      simp [scaleDown, findEnergyEfficientServer, h80]
  · constructor
    · rw [scaleUp, findEnergyEfficientServer]
      simp only [hce]
    · constructor
      · rw [scaleUp, findEnergyEfficientServer]
        simp only [hce]
        rfl
      · constructor
        · rw [scaleDown, if_neg h80, findEnergyEfficientServer]
          simp only [hce]
        · rw [scaleDown, if_neg h80, findEnergyEfficientServer]
          simp only [hce]
          rfl

/-- C9 witness: a failing fleet inventory leaves both cooldowns alone. -/
theorem cooldown_unchanged_on_error_witness :
    (scaleUp c3NoLookup (Except.error "boom") (fun _ => Except.ok [])
      (fun _ _ _ => true) c2St 1000 c2Src).1 = c2St ∧
    ((scaleUp c3NoLookup (Except.error "boom") (fun _ => Except.ok [])
      (fun _ _ _ => true) c2St 1000 c2Src).2.2).isSome = true ∧
    (scaleDown c3NoLookup (Except.error "boom") (fun _ => Except.ok [])
      (fun _ _ _ => true) c2St 1000 c2Src).1 = c2St ∧
    ((scaleDown c3NoLookup (Except.error "boom") (fun _ => Except.ok [])
      (fun _ _ _ => true) c2St 1000 c2Src).2.2).isSome = true :=
  cooldown_unchanged_on_error c3NoLookup (Except.error "boom")
    (fun _ => Except.ok []) (fun _ _ _ => true) c2St 1000 c2Src
    (Or.inl ⟨"boom", rfl⟩)

/- ===== C7, C8: metric store ===== -/

/-- C7: `CollectMetrics` never blocks: it fails exactly when the buffer
is at (or beyond) capacity, in which case the buffer is unchanged and the
"metric buffer is full" error is returned; with free space the one-sample
batch is appended and the call succeeds. -/
theorem collectMetrics_backpressure (cap : Nat) (buffer : List MetricBatch)
    (sid : String) (data : MetricData) (now : Int) :
    ((CollectMetrics cap buffer sid data now).2.isSome = true ↔ cap ≤ buffer.length) ∧
    (cap ≤ buffer.length →
      CollectMetrics cap buffer sid data now = (buffer, some "metric buffer is full")) ∧
    (buffer.length < cap →
      CollectMetrics cap buffer sid data now =
        (buffer ++ [{ serverID := sid, metrics := [data], timestamp := now }], none)) := by
  simp only [CollectMetrics]
  split_ifs with h
  · refine ⟨?_, ?_, fun _ => rfl⟩
    · simp only [Option.isSome_none]
      constructor
      · intro hc; exact absurd hc (by simp)
      · intro hle; omega
    · intro hle; omega
  · refine ⟨?_, fun _ => rfl, ?_⟩
    · simp only [Option.isSome_some]
      constructor
      · intro _; omega
      · intro _; trivial
    · intro hlt; omega

/-- C7 witness: a zero-capacity buffer rejects the sample and is left
unchanged. -/
theorem collectMetrics_backpressure_witness :
    CollectMetrics 0 [] "s1" c7Data 0 = ([], some "metric buffer is full") :=
  (collectMetrics_backpressure 0 [] "s1" c7Data 0).2.1 (Nat.le_refl 0)

/-- C8 counterexample: a sample whose timestamp equals exactly
`sweep time − retention` lies inside the claim's closed window
(timestamp ≥ sweep − R) yet the sweep drops it — `time.Time.After` is a
strict comparison. -/
theorem cleanup_evicts_boundary_sample :
    c8Sample.timestamp * 1000000000 ≥ 5 * 1000000000 - 5 * 1000000000 ∧
    c8Sample ∈ c8Data ∧
    cleanupSweepServer (5 * 1000000000) (5 * 1000000000) c8Data = [] := by
  refine ⟨by norm_num [c8Sample], by simp [c8Data], ?_⟩
  norm_num [cleanupSweepServer, c8Data, c8Sample, List.filter]

/-- C8 (amended): after one eviction sweep, a server's retained sequence
consists exactly of its samples with timestamp STRICTLY after
`sweep time − retention`, in their original order (a sublist); every
retained sample satisfies the claim's `≥` bound, every sample at or
before the cutoff is dropped (the boundary sample included), and every
sample strictly inside the window is retained. -/
theorem cleanupOldMetrics_window (retention now : Int)
    (metricsMap : List (String × List MetricData)) (sid : String)
    (l : List MetricData) (hmem : (sid, l) ∈ metricsMap) :
    (sid, cleanupSweepServer retention now l) ∈ cleanupOldMetrics retention now metricsMap ∧
    List.Sublist (cleanupSweepServer retention now l) l ∧
    (∀ m ∈ cleanupSweepServer retention now l,
      m.timestamp * 1000000000 ≥ now - retention) ∧
    (∀ m ∈ l, m.timestamp * 1000000000 ≤ now - retention →
      m ∉ cleanupSweepServer retention now l) ∧
    (∀ m ∈ l, m.timestamp * 1000000000 > now - retention →
      m ∈ cleanupSweepServer retention now l) := by
  refine ⟨?_, ?_, ?_, ?_, ?_⟩
  · rw [cleanupOldMetrics]
    exact List.mem_map.mpr ⟨(sid, l), hmem, rfl⟩
  · rw [cleanupSweepServer]
    exact List.filter_sublist l
  · intro m hm
    rw [cleanupSweepServer] at hm
    have hdec := (List.mem_filter.mp hm).2
    have hgt : m.timestamp * 1000000000 > now - retention := of_decide_eq_true hdec
    exact le_of_lt hgt
  · intro m _ hle hmem'
    rw [cleanupSweepServer] at hmem'
    have hdec := (List.mem_filter.mp hmem').2
    have hgt : m.timestamp * 1000000000 > now - retention := of_decide_eq_true hdec
    omega
  · intro m hm hgt
    rw [cleanupSweepServer]
    exact List.mem_filter.mpr ⟨hm, decide_eq_true hgt⟩

/-- C8 witness: a strictly-inside sample's sequence appears, swept, in
the sweep of the per-server map. -/
theorem cleanupOldMetrics_window_witness :
    ("s1", cleanupSweepServer (5 * 1000000000) (5 * 1000000000) c8KeepData) ∈
      cleanupOldMetrics (5 * 1000000000) (5 * 1000000000) [("s1", c8KeepData)] :=
  (cleanupOldMetrics_window (5 * 1000000000) (5 * 1000000000) [("s1", c8KeepData)]
    "s1" c8KeepData (List.mem_singleton.mpr rfl)).1

end Platypus
